import Mathlib

/-!
Verification development for the SmileIn attendance backend.

This file gives a shallow embedding, in Lean 4, of the attendance check-in
decision engine of the repository:

* `app/crud/attendance.py` — `create_attendance`, `create_multiple_attendances`,
  `student_check_in`, `process_json_field`;
* `app/services/face_verification_service.py` — `extract_nim`, `verify_face`
  (decision core over the classifier outcome), and the orchestrator
  `student_check_in_with_verification`.

Python values flowing through `process_json_field` are modelled by the
inductive `PyVal`; `json.loads` is modelled by an executable strict JSON
parser (`jsonLoads`) following CPython's `json` grammar (objects, arrays,
strings with escapes, numbers per the scanner's NUMBER_RE, `true`/`false`/
`null`, and the CPython extensions `NaN`/`Infinity`/`-Infinity`).
Python floats are modelled by exact rationals plus infinities and NaN;
CPython's shortest-round-trip float formatting is abstracted by exact
decimal rendering (no verified property depends on float formatting).
Datetimes are modelled by a calendar-day ordinal plus microseconds of day
plus an optional timezone offset, compared lexicographically as in Python's
naive datetime comparison.  Database sessions are modelled by explicit
association lists, and each impure clock read (`get_indonesia_time`,
`get_indonesia_date`) is passed in as an explicit snapshot argument.
-/

set_option autoImplicit false

/-- Python float values: finite floats are abstracted by exact rationals;
`inf`/`nan` cover the IEEE special values produced by `float("inf")` etc. -/
inductive PyFloat where
  | finite (q : ℚ)
  | inf (neg : Bool)
  | nan
  deriving Repr, DecidableEq

/-- Python values as they flow through the attendance JSON-field plumbing:
`None`, `bool`, `int`, `float`, `str`, `list`, and string-keyed `dict`. -/
inductive PyVal where
  | none
  | bool (b : Bool)
  | int (n : Int)
  | float (f : PyFloat)
  | str (s : String)
  | list (xs : List PyVal)
  | dict (d : List (String × PyVal))
  deriving Repr

/-- Python truthiness (`bool(x)`): `None`, `False`, zero, and empty
containers/strings are falsy, everything else truthy. -/
def pyTruthy : PyVal → Bool
  | .none => false
  | .bool b => b
  | .int n => n != 0
  | .float f =>
    match f with
    | .finite q => q != 0
    | .inf _ => true
    | .nan => true
  | .str s => s != ""
  | .list xs => !xs.isEmpty
  | .dict d => !d.isEmpty

/-- Python's `str.split(sep)` for a single-character separator on a list of
characters: splits at every occurrence, keeping empty pieces, and returns at
least one piece. -/
def pySplit (sep : Char) : List Char → List (List Char)
  | [] => [[]]
  | c :: rest =>
    if c = sep then [] :: pySplit sep rest
    else
      match pySplit sep rest with
      | [] => [[c]]
      | g :: gs => (c :: g) :: gs

/-- Decimal digits of a character list interpreted as a natural number
(assumes all characters are digits). -/
def digitsToNat (cs : List Char) : Nat :=
  cs.foldl (fun acc c => acc * 10 + (c.toNat - 48)) 0

/-- Leading run of decimal digits of a character list, with the remainder. -/
def takeDigits : List Char → List Char × List Char
  | [] => ([], [])
  | c :: rest =>
    if c.isDigit then
      match takeDigits rest with
      | (ds, r) => (c :: ds, r)
    else ([], c :: rest)

/-- Python `int(s)` on a string: optional surrounding ASCII whitespace, an
optional sign, then decimal digits; `Option.none` models the `ValueError`
raised on anything else.  (CPython also accepts underscores between digits
and non-ASCII digits; those exotic forms are not modelled.) -/
def pyIntParse (cs : List Char) : Option Int :=
  let isWs := fun (c : Char) => c = ' ' || c = '\t' || c = '\n' || c = '\r'
  let trimmed := (cs.dropWhile isWs).reverse.dropWhile isWs |>.reverse
  let (neg, body) :=
    match trimmed with
    | '-' :: r => (true, r)
    | '+' :: r => (false, r)
    | _ => (false, trimmed)
  match takeDigits body with
  | ([], _) => Option.none
  | (ds, rest) =>
    if rest.isEmpty then
      some (if neg then -(digitsToNat ds : Int) else (digitsToNat ds : Int))
    else Option.none

/-- Decimal digits (as characters) of the fractional part of a nonnegative
rational `r < 1`, up to `fuel` places; terminates early when the remainder
hits zero. -/
def fracDigitChars : Nat → ℚ → List Char
  | 0, _ => []
  | fuel + 1, r =>
    if r = 0 then []
    else
      let r10 := r * 10
      let d : Nat := (r10.num.toNat) / r10.den
      Char.ofNat (48 + d) :: fracDigitChars fuel (r10 - (d : ℚ))

/-- Rendering of a Python float by `str`: `nan`, `inf`/`-inf`, or an exact
decimal expansion (abstracting CPython's shortest-round-trip formatting;
no verified property depends on this rendering). -/
def pyFloatStr : PyFloat → String
  | .nan => "nan"
  | .inf b => if b then "-inf" else "inf"
  | .finite q =>
    let sign := if q < 0 then "-" else ""
    let a : ℚ := |q|
    let ip : Nat := a.num.toNat / a.den
    let frac : ℚ := a - (ip : ℚ)
    let ds := fracDigitChars 64 frac
    sign ++ toString ip ++ "." ++ (if ds.isEmpty then "0" else String.mk ds)

/-- ASCII single-quote character, used by Python `repr` of strings. -/
def singleQuote : String :=
  String.singleton (Char.ofNat 39)

mutual

/-- Python `repr(x)` for the modelled values (used by `str` on containers):
`None`, `True`/`False`, numbers, quoted strings (quote/escape subtleties of
CPython `repr` are abstracted), bracketed lists, and braced dicts. -/
def pyRepr : PyVal → String
  | .none => "None"
  | .bool b => if b then "True" else "False"
  | .int n => toString n
  | .float f => pyFloatStr f
  | .str s => singleQuote ++ s ++ singleQuote
  | .list xs => "[" ++ String.intercalate ", " (pyReprList xs) ++ "]"
  | .dict d => "\x7b" ++ String.intercalate ", " (pyReprDict d) ++ "\x7d"

/-- Pointwise `pyRepr` over a list of values. -/
def pyReprList : List PyVal → List String
  | [] => []
  | x :: xs => pyRepr x :: pyReprList xs

/-- Pointwise `'key': repr(value)` rendering over dict entries. -/
def pyReprDict : List (String × PyVal) → List String
  | [] => []
  | (k, v) :: rest => (singleQuote ++ k ++ singleQuote ++ ": " ++ pyRepr v) :: pyReprDict rest

end

/-- Python `str(x)`: the string itself for strings, `repr` otherwise
(for the modelled value shapes the two agree on non-strings). -/
def pyStr : PyVal → String
  | .str s => s
  | v => pyRepr v

/-- Python dict insertion used while parsing JSON objects: a duplicate key
keeps its original position but takes the new value; a fresh key is appended. -/
def dictInsert (d : List (String × PyVal)) (k : String) (v : PyVal) : List (String × PyVal) :=
  if d.any (fun p => p.1 = k) then
    d.map (fun p => if p.1 = k then (k, v) else p)
  else d ++ [(k, v)]

/-- JSON whitespace skipping (space, tab, newline, carriage return), as in
CPython's json scanner. -/
def skipWs : List Char → List Char
  | [] => []
  | c :: rest =>
    if c = ' ' || c = '\t' || c = '\n' || c = '\r' then skipWs rest
    else c :: rest

/-- Value of a hexadecimal digit character, if it is one. -/
def hexDigit (c : Char) : Option Nat :=
  if '0' ≤ c ∧ c ≤ '9' then some (c.toNat - 48)
  else if 'a' ≤ c ∧ c ≤ 'f' then some (c.toNat - 87)
  else if 'A' ≤ c ∧ c ≤ 'F' then some (c.toNat - 55)
  else Option.none

/-- Body of a JSON string after the opening quote: returns the decoded
characters and the remainder after the closing quote.  Handles the standard
escapes and `\uXXXX` (surrogate-pair recombination is abstracted: each
`\uXXXX` yields one scalar); rejects raw control characters as CPython's
strict mode does.  Structured on fuel so that it reduces in the kernel. -/
def parseStringBody : Nat → List Char → Option (List Char × List Char)
  | 0, _ => Option.none
  | _, [] => Option.none
  | fuel + 1, c :: rest =>
    if c = '"' then some ([], rest)
    else if c = '\\' then
      match rest with
      | [] => Option.none
      | e :: rest2 =>
        let cont := fun (ch : Char) (tail : List Char) =>
          match parseStringBody fuel tail with
          | some (s, r) => some (ch :: s, r)
          | Option.none => Option.none
        if e = '"' then cont '"' rest2
        else if e = '\\' then cont '\\' rest2
        else if e = '/' then cont '/' rest2
        else if e = 'b' then cont (Char.ofNat 8) rest2
        else if e = 'f' then cont (Char.ofNat 12) rest2
        else if e = 'n' then cont '\n' rest2
        else if e = 'r' then cont '\r' rest2
        else if e = 't' then cont '\t' rest2
        else if e = 'u' then
          match rest2 with
          | h1 :: h2 :: h3 :: h4 :: rest3 =>
            match hexDigit h1, hexDigit h2, hexDigit h3, hexDigit h4 with
            | some a, some b, some c', some d =>
              cont (Char.ofNat (((a * 16 + b) * 16 + c') * 16 + d)) rest3
            | _, _, _, _ => Option.none
          | _ => Option.none
        else Option.none
    else if c.toNat < 32 then Option.none
    else
      match parseStringBody fuel rest with
      | some (s, r) => some (c :: s, r)
      | Option.none => Option.none

/-- JSON number per CPython's scanner regex
`(-?(?:0|[1-9]\d+|[1-9]))(\.\d+)?([eE][-+]?\d+)?`: an integer literal yields
a Python `int`, presence of a fraction or exponent yields a `float`. -/
def parseNumber (cs : List Char) : Option (PyVal × List Char) :=
  let (neg, cs1) :=
    match cs with
    | '-' :: r => (true, r)
    | _ => (false, cs)
  match cs1 with
  | [] => Option.none
  | c :: r =>
    if ¬ c.isDigit then Option.none
    else
      let (intDs, rest) :=
        if c = '0' then ([c], r)
        else
          match takeDigits r with
          | (ds, rest) => (c :: ds, rest)
      let (fracDs, rest2) :=
        match rest with
        | '.' :: r2 =>
          match takeDigits r2 with
          | ([], _) => ([], rest)
          | (ds, r3) => (ds, r3)
        | _ => ([], rest)
      let expAndRest : Option (Int × List Char) :=
        match rest2 with
        | e :: r2 =>
          if e = 'e' ∨ e = 'E' then
            let (esign, r3) :=
              match r2 with
              | '-' :: r4 => ((-1 : Int), r4)
              | '+' :: r4 => ((1 : Int), r4)
              | _ => ((1 : Int), r2)
            match takeDigits r3 with
            | ([], _) => Option.none
            | (ds, r4) => some (esign * (digitsToNat ds : Int), r4)
          else Option.none
        | [] => Option.none
      let sign : Int := if neg then -1 else 1
      match expAndRest with
      | some (ex, rest3) =>
        let mantissa : Nat := digitsToNat (intDs ++ fracDs)
        let q : ℚ := (sign : ℚ) * (mantissa : ℚ) / ((10 : ℚ) ^ fracDs.length) * (10 : ℚ) ^ ex
        some (.float (.finite q), rest3)
      | Option.none =>
        if fracDs.isEmpty then
          some (.int (sign * (digitsToNat intDs : Int)), rest2)
        else
          let mantissa : Nat := digitsToNat (intDs ++ fracDs)
          let q : ℚ := (sign : ℚ) * (mantissa : ℚ) / ((10 : ℚ) ^ fracDs.length)
          some (.float (.finite q), rest2)

/-- Parsing mode of the single-function JSON parser: a value, the tail of an
array after its first element position, or the tail of an object. -/
inductive JMode where
  | val
  | arrTail (acc : List PyVal)
  | objTail (acc : List (String × PyVal))

/-- Recursive-descent JSON parser over a character list, structured on fuel
(so that it is structurally recursive and reduces in the kernel).  Follows
CPython's `json.loads` grammar: strings, objects, arrays, numbers,
`true`/`false`/`null`, and the CPython extensions `NaN`, `Infinity`,
`-Infinity` (tried after numbers, as in the scanner). -/
def parseJ : Nat → JMode → List Char → Option (PyVal × List Char)
  | 0, _, _ => Option.none
  | fuel + 1, .val, cs =>
    match skipWs cs with
    | [] => Option.none
    | '"' :: rest =>
      (match parseStringBody (rest.length + 1) rest with
       | some (s, r) => some (.str (String.mk s), r)
       | Option.none => Option.none)
    | '\x7b' :: rest =>
      (match skipWs rest with
       | '\x7d' :: r2 => some (.dict [], r2)
       | _ => parseJ fuel (.objTail []) rest)
    | '[' :: rest =>
      (match skipWs rest with
       | ']' :: r2 => some (.list [], r2)
       | _ => parseJ fuel (.arrTail []) rest)
    | 'n' :: 'u' :: 'l' :: 'l' :: rest => some (.none, rest)
    | 't' :: 'r' :: 'u' :: 'e' :: rest => some (.bool true, rest)
    | 'f' :: 'a' :: 'l' :: 's' :: 'e' :: rest => some (.bool false, rest)
    | cs' =>
      (match parseNumber cs' with
       | some (v, r) => some (v, r)
       | Option.none =>
         match cs' with
         | 'N' :: 'a' :: 'N' :: rest => some (.float .nan, rest)
         | 'I' :: 'n' :: 'f' :: 'i' :: 'n' :: 'i' :: 't' :: 'y' :: rest =>
           some (.float (.inf false), rest)
         | '-' :: 'I' :: 'n' :: 'f' :: 'i' :: 'n' :: 'i' :: 't' :: 'y' :: rest =>
           some (.float (.inf true), rest)
         | _ => Option.none)
  | fuel + 1, .arrTail acc, cs =>
    (match parseJ fuel .val cs with
     | some (v, r1) =>
       (match skipWs r1 with
        | ',' :: r2 => parseJ fuel (.arrTail (acc ++ [v])) r2
        | ']' :: r2 => some (.list (acc ++ [v]), r2)
        | _ => Option.none)
     | Option.none => Option.none)
  | fuel + 1, .objTail acc, cs =>
    (match skipWs cs with
     | '"' :: rest =>
       (match parseStringBody (rest.length + 1) rest with
        | some (k, r1) =>
          (match skipWs r1 with
           | ':' :: r2 =>
             (match parseJ fuel .val r2 with
              | some (v, r3) =>
                let acc' := dictInsert acc (String.mk k) v
                (match skipWs r3 with
                 | ',' :: r4 => parseJ fuel (.objTail acc') r4
                 | '\x7d' :: r4 => some (.dict acc', r4)
                 | _ => Option.none)
              | Option.none => Option.none)
           | _ => Option.none)
        | Option.none => Option.none)
     | _ => Option.none)

/-- Python `json.loads(s)`: parse one JSON value with surrounding whitespace
allowed; `Option.none` models the `json.JSONDecodeError` raised on anything
else (including trailing data). -/
def jsonLoads (s : String) : Option PyVal :=
  let cs := s.data
  match parseJ (3 * cs.length + 3) .val cs with
  | some (v, rest) => if (skipWs rest).isEmpty then some v else Option.none
  | Option.none => Option.none

/-- Embedding of `process_json_field` (`app/crud/attendance.py`).  Branches in
source order: `None` passes through; a `dict` is returned as-is; an `int` or
`float` becomes `{"data": str(x)}` (Python `bool` is an `int` subtype and
takes the same branch); a `str` is parsed with `json.loads`, falling back to
`{"data": s}` when parsing fails; anything else becomes `{"data": str(x)}`. -/
def process_json_field : PyVal → PyVal
  | .none => .none
  | .dict d => .dict d
  | .bool b => .dict [("data", .str (if b then "True" else "False"))]
  | .int n => .dict [("data", .str (toString n))]
  | .float f => .dict [("data", .str (pyFloatStr f))]
  | .str s =>
    (match jsonLoads s with
     | some v => v
     | Option.none => .dict [("data", .str s)])
  | .list xs => .dict [("data", .str (pyStr (.list xs)))]

/-- Python `datetime` values, reduced to what the check-in flow inspects:
the calendar date as a day ordinal (`date.toordinal()`), the time of day in
microseconds, and the `tzinfo` utcoffset in minutes (`Option.none` = naive).
Python compares two naive datetimes lexicographically by their fields, which
on this representation is the lexicographic order on `(day, tod)`. -/
structure PyDateTime where
  day : Int
  tod : Nat
  tzMinutes : Option Int := Option.none
  deriving Repr, DecidableEq

/-- Strict `>` on naive datetimes (Python field-wise comparison). -/
def naiveGtB (a b : PyDateTime) : Bool :=
  b.day < a.day || (a.day == b.day && b.tod < a.tod)

/-- Python `dt.replace(tzinfo=None)`: drop the offset, keep the wall clock. -/
def stripTz (d : PyDateTime) : PyDateTime :=
  { d with tzMinutes := Option.none }

/-- Microseconds of day of a `datetime.time(hour, minute, second)`. -/
def todOfHMS (h m s : Nat) : Nat :=
  ((h * 60 + m) * 60 + s) * 1000000

/-- Parsing of a schedule `start_time` string as `student_check_in` does it:
`parts = s.split(":")`; `int(parts[0])`, `int(parts[1])`, and `int(parts[2])`
when present (parts beyond the third are ignored); then the
`datetime.time` constructor's range checks.  `Option.none` models the
`IndexError`/`ValueError` escaping the function on malformed strings. -/
def parse_start_time (s : String) : Option (Nat × Nat × Nat) :=
  match pySplit ':' s.data with
  | p0 :: p1 :: rest =>
    let h? := pyIntParse p0
    let m? := pyIntParse p1
    let s? :=
      match rest with
      | p2 :: _ => pyIntParse p2
      | [] => some (0 : Int)
    match h?, m?, s? with
    | some h, some m, some sec =>
      if 0 ≤ h ∧ h < 24 ∧ 0 ≤ m ∧ m < 60 ∧ 0 ≤ sec ∧ sec < 60 then
        some (h.toNat, m.toNat, sec.toNat)
      else Option.none
    | _, _, _ => Option.none
  | _ => Option.none

/-- Attendance rows (`app/models/attendance.py`), restricted to the columns
the check-in decision engine reads or writes; the audit timestamps
`created_at`/`updated_at` and the ORM relationship attributes are omitted
(no verified property mentions them). -/
structure Attendance where
  student_id : Int
  schedule_id : Int
  date : Int
  check_in_time : Option PyDateTime
  status : String
  location_data : PyVal
  face_verification_data : PyVal
  smile_detected : Bool
  image_captured_url : Option String
  deriving Repr

/-- Schedule rows (`app/models/schedule.py`), restricted to what check-in
reads: only `start_time` is consulted. -/
structure Schedule where
  course_id : Int
  start_time : String
  end_time : String
  deriving Repr

/-- Database session state: attendance and schedule tables as association
lists keyed by primary key (`db.get(Model, id)` is `List.lookup`). -/
structure DB where
  attendances : List (Int × Attendance)
  schedules : List (Int × Schedule)
  deriving Repr

/-- Commit of a mutated attendance row: every entry with the given primary
key takes the new value, other rows are untouched. -/
def setAttendance (db : DB) (attendance_id : Int) (a : Attendance) : DB :=
  { db with
    attendances := db.attendances.map (fun p => if p.1 = attendance_id then (attendance_id, a) else p) }

/-- Payload of `AttendanceCreate` (`app/schemas/attendance.py`). -/
structure AttendanceCreate where
  student_id : Int
  schedule_id : Int
  deriving Repr

/-- Payload of `MultipleAttendanceCreate` (`app/schemas/attendance.py`). -/
structure MultipleAttendanceCreate where
  student_ids : List Int
  schedule_id : Int
  deriving Repr

/-- Payload of `AttendanceCheckIn` (`app/schemas/attendance.py`), as
`student_check_in` consumes it. -/
structure AttendanceCheckIn where
  check_in_time : Option PyDateTime := Option.none
  location_data : PyVal := PyVal.none
  face_verification_data : PyVal := PyVal.none
  smile_detected : Option Bool := some false
  deriving Repr

/-- Embedding of `create_attendance` (`app/crud/attendance.py`): builds a row
with today's date, `ABSENT` status and no check-in data, and inserts it
unconditionally.  The clock snapshot `now` stands for the
`get_indonesia_time`/`get_indonesia_date` reads, and `newId` for the
autoincremented primary key. -/
def create_attendance (now : PyDateTime) (newId : Int) (db : DB)
    (attendance : AttendanceCreate) : DB × Attendance :=
  let db_attendance : Attendance :=
    { student_id := attendance.student_id
      schedule_id := attendance.schedule_id
      date := now.day
      check_in_time := Option.none
      status := "ABSENT"
      location_data := PyVal.none
      face_verification_data := PyVal.none
      smile_detected := false
      image_captured_url := Option.none }
  ({ db with attendances := db.attendances ++ [(newId, db_attendance)] }, db_attendance)

/-- Embedding of `create_multiple_attendances` (`app/crud/attendance.py`):
one `ABSENT` row per requested student id, inserted unconditionally; `newIds`
stands for the autoincremented primary keys of the new rows. -/
def create_multiple_attendances (now : PyDateTime) (newIds : List Int) (db : DB)
    (multiple_attendance : MultipleAttendanceCreate) : DB × List Attendance :=
  let records := multiple_attendance.student_ids.map (fun sid =>
    { student_id := sid
      schedule_id := multiple_attendance.schedule_id
      date := now.day
      check_in_time := Option.none
      status := "ABSENT"
      location_data := PyVal.none
      face_verification_data := PyVal.none
      smile_detected := false
      image_captured_url := Option.none : Attendance })
  ({ db with attendances := db.attendances ++ newIds.zip records }, records)

/-- Outcome of `student_check_in`: the function returns `None` when the
attendance row is missing, raises when the schedule's `start_time` cannot be
parsed, and otherwise commits and returns the updated row. -/
inductive CheckInOutcome where
  | raised
  | noRecord
  | updated (db : DB) (record : Attendance)
  deriving Repr

/-- Embedding of `student_check_in` (`app/crud/attendance.py`).  The clock
snapshot `now` stands for the `get_indonesia_time`/`get_indonesia_date`
reads.  Control flow follows the source: load the row (or return `None`);
set `check_in_time` to the caller's value or `now`; if the schedule loads,
parse its `start_time`, build the start datetime on today's date and compare
it with the timezone-stripped check-in time (`LATE` iff strictly later),
else fall back to `PRESENT`; then overwrite `location_data` /
`face_verification_data` only when truthy, `smile_detected` only when not
`None`, the image reference only when not `None`; commit.  The sequence of
conditional field assignments of the source is rendered as one record whose
fields carry the corresponding conditionals. -/
def student_check_in (now : PyDateTime) (db : DB) (attendance_id : Int)
    (check_in_data : AttendanceCheckIn) (image_captured_url : Option String) :
    CheckInOutcome :=
  match db.attendances.lookup attendance_id with
  | Option.none => .noRecord
  | some attendance =>
    let eff : PyDateTime := check_in_data.check_in_time.getD now
    let status? : Option String :=
      match db.schedules.lookup attendance.schedule_id with
      | some schedule =>
        (match parse_start_time schedule.start_time with
         | Option.none => Option.none
         | some (h, m, s) =>
           let start_time : PyDateTime := { day := now.day, tod := todOfHMS h m s }
           let check_in_time := stripTz eff
           some (if naiveGtB check_in_time start_time then "LATE" else "PRESENT"))
      | Option.none => some "PRESENT"
    match status? with
    | Option.none => .raised
    | some st =>
      let updated : Attendance :=
        { student_id := attendance.student_id
          schedule_id := attendance.schedule_id
          date := attendance.date
          check_in_time := some eff
          status := st
          location_data :=
            if pyTruthy check_in_data.location_data then
              process_json_field check_in_data.location_data
            else attendance.location_data
          face_verification_data :=
            if pyTruthy check_in_data.face_verification_data then
              process_json_field check_in_data.face_verification_data
            else attendance.face_verification_data
          smile_detected :=
            match check_in_data.smile_detected with
            | some b => b
            | Option.none => attendance.smile_detected
          image_captured_url :=
            match image_captured_url with
            | some u => some u
            | Option.none => attendance.image_captured_url }
      .updated (setAttendance db attendance_id updated) updated

/-- Number of attendance rows for a `(student_id, schedule_id, date)` natural
key. -/
def natKeyCount (db : DB) (sid schid d : Int) : Nat :=
  (db.attendances.filter (fun p =>
    p.2.student_id == sid && p.2.schedule_id == schid && p.2.date == d)).length

/-- Class labels of the face-recognition classifier
(`FaceVerificationService.__init__`). -/
def class_labels : List String :=
  [ "11322005_Maria Sibarani", "11322007_Putri", "11322008_Maria Pangaribuan",
    "11322009_Iqbal", "11322012_Carloka", "11322016_Horas", "11322017_Jessica",
    "11322018_Maranatha", "11322019_Silvi", "11322020_Okta", "11322022_Keren",
    "11322023_Mananda", "11322026_Aqustin", "11322027_Lenni",
    "11322031_Daniel Manalu", "11322032_Sabar", "11322036_Tom", "11322037_Hasan",
    "11322038_Samuel", "11322039_Kenan", "11322041_Cecilia", "11322042_Kesia",
    "11322043_Risna", "11322044_Kristina", "11322046_Indah", "11322047_Olivia",
    "11322048_Resa", "11322049_Trinita", "11322050_Elisabeth", "11322051_Sarah",
    "11322052_Blessherin", "11322057_Citra", "11322058_Dian", "11322059_Cesia",
    "11322060_Vanessa", "11322061_Johanna", "11322062_Monica", "11322063_Hagai" ]

/-- Embedding of `FaceVerificationService.extract_nim`: for a truthy (that
is, non-empty) label, the first piece of `label.split("_")`; `Option.none`
models the Python `None` returned for an empty label. -/
def extract_nim (prediction : String) : Option String :=
  if prediction = "" then Option.none
  else some (String.mk ((pySplit '_' prediction.data).headD []))

/-- Fixed-point rendering of a rational with four decimal places, used for
the `{confidence:.4f}` interpolations of `verify_face` messages (Python's
round-half-even on binary doubles is abstracted by rational rounding; no
verified property depends on message formatting). -/
def fmt4 (q : ℚ) : String :=
  let n : Int := round (q * 10000)
  let a := n.natAbs
  let fracStr := toString (a % 10000)
  let pad := String.mk (List.replicate (4 - fracStr.length) '0')
  (if n < 0 then "-" else "") ++ toString (a / 10000) ++ "." ++ pad ++ fracStr

/-- Result dictionary of `verify_face`.  Boolean fields record the Python
truth value of the corresponding entries (on the reachable label set the
source values are genuine booleans); in the error-path dictionaries the
`nim_match`/`confidence_ok` keys are absent, which is modelled as `false` —
exactly the default every caller supplies via `.get(key, False)`. -/
structure VerifyResult where
  verified : Bool
  message : String
  confidence : ℚ
  predicted_nim : Option String
  predicted_name : Option String
  nim_match : Bool
  confidence_ok : Bool
  deriving Repr

/-- Outcome of the image pipeline in front of the classification decision of
`verify_face`: image decode failure (`convert_input_to_image` returns
`None`), no detected face (`detect_face` returns `None`), a classification
(argmax index into `class_labels` plus its probability), or any exception
reaching the enclosing `try` (message = `str(e)`). -/
inductive PipelineOutcome where
  | decodeFail
  | noFace
  | classified (idx : Nat) (confidence : ℚ)
  | raised (msg : String)
  deriving Repr

/-- Embedding of the decision core of `FaceVerificationService.verify_face`
(`app/services/face_verification_service.py`): each pipeline failure yields
`verified=False` with `confidence=0.0`; a classification looks up the
predicted label, extracts the NIM, and combines
`nim_match = predicted_nim and predicted_nim == nim` (Python truthiness)
with `confidence_ok = confidence >= confidence_threshold` into
`verified = nim_match and confidence_ok`.  An out-of-range argmax index
raises `IndexError`, caught by the enclosing `try` like any other error. -/
def verify_face (outcome : PipelineOutcome) (nim : String)
    (confidence_threshold : ℚ) : VerifyResult :=
  match outcome with
  | .decodeFail =>
    { verified := false, message := "Invalid image data format", confidence := 0,
      predicted_nim := Option.none, predicted_name := Option.none,
      nim_match := false, confidence_ok := false }
  | .noFace =>
    { verified := false, message := "No face detected in the image", confidence := 0,
      predicted_nim := Option.none, predicted_name := Option.none,
      nim_match := false, confidence_ok := false }
  | .raised msg =>
    { verified := false, message := "Error during face verification: " ++ msg,
      confidence := 0, predicted_nim := Option.none, predicted_name := Option.none,
      nim_match := false, confidence_ok := false }
  | .classified idx confidence =>
    match class_labels[idx]? with
    | Option.none =>
      { verified := false,
        message := "Error during face verification: list index out of range",
        confidence := 0, predicted_nim := Option.none, predicted_name := Option.none,
        nim_match := false, confidence_ok := false }
    | some predicted_class =>
      let predicted_nim := extract_nim predicted_class
      let nim_match : Bool :=
        match predicted_nim with
        | Option.none => false
        | some t => if t = "" then false else t == nim
      let confidence_ok : Bool := decide (confidence ≥ confidence_threshold)
      let verified := nim_match && confidence_ok
      let message :=
        if !nim_match && !confidence_ok then
          "Face verification failed: Wrong person (predicted: " ++ predicted_class ++
            ") and low confidence (" ++ fmt4 confidence ++ ")"
        else if !nim_match then
          "Face verification failed: Wrong person (predicted: " ++ predicted_class ++ ")"
        else if !confidence_ok then
          "Face verification failed: Low confidence (" ++ fmt4 confidence ++ ")"
        else "Face verified successfully"
      { verified := verified, message := message, confidence := confidence,
        predicted_nim := predicted_nim, predicted_name := some predicted_class,
        nim_match := nim_match, confidence_ok := confidence_ok }

/-- JSON escaping of one character for `json.dumps` (the `ensure_ascii`
escaping of non-ASCII characters is abstracted; the serialized payloads here
are ASCII). -/
def jsonEscapeChar (c : Char) : String :=
  if c = '"' then "\\\""
  else if c = '\\' then "\\\\"
  else if c = '\n' then "\\n"
  else if c = '\r' then "\\r"
  else if c = '\t' then "\\t"
  else if c.toNat < 32 then
    "\\u00" ++ String.mk [Char.ofNat (if c.toNat / 16 < 10 then 48 + c.toNat / 16 else 87 + c.toNat / 16),
                          Char.ofNat (if c.toNat % 16 < 10 then 48 + c.toNat % 16 else 87 + c.toNat % 16)]
  else String.singleton c

/-- JSON escaping of a string for `json.dumps`. -/
def jsonEscape (s : String) : String :=
  String.join (s.data.map jsonEscapeChar)

mutual

/-- Python `json.dumps(x)` with default separators. -/
def jsonDumps : PyVal → String
  | .none => "null"
  | .bool b => if b then "true" else "false"
  | .int n => toString n
  | .float f =>
    (match f with
     | .nan => "NaN"
     | .inf b => if b then "-Infinity" else "Infinity"
     | .finite q => pyFloatStr (.finite q))
  | .str s => "\"" ++ jsonEscape s ++ "\""
  | .list xs => "[" ++ String.intercalate ", " (jsonDumpsList xs) ++ "]"
  | .dict d => "\x7b" ++ String.intercalate ", " (jsonDumpsDict d) ++ "\x7d"

/-- Pointwise `json.dumps` over array elements. -/
def jsonDumpsList : List PyVal → List String
  | [] => []
  | x :: xs => jsonDumps x :: jsonDumpsList xs

/-- Pointwise `"key": dumps(value)` over object entries. -/
def jsonDumpsDict : List (String × PyVal) → List String
  | [] => []
  | (k, v) :: rest => ("\"" ++ jsonEscape k ++ "\": " ++ jsonDumps v) :: jsonDumpsDict rest

end

/-- Serialization of the comprehensive verification data stored by
`student_check_in_with_verification` (`json.dumps` of the result dictionary;
`timestamp` stands for `str(datetime.now())`). -/
def serializeVerification (v : VerifyResult) (expected_nim : String)
    (confidence_threshold : ℚ) (timestamp : String) : String :=
  jsonDumps (.dict
    [ ("verified", .bool v.verified),
      ("confidence", .float (.finite v.confidence)),
      ("predicted_name", match v.predicted_name with
        | some s => .str s
        | Option.none => .none),
      ("predicted_nim", match v.predicted_nim with
        | some s => .str s
        | Option.none => .none),
      ("expected_nim", .str expected_nim),
      ("confidence_threshold", .float (.finite confidence_threshold)),
      ("nim_match", .bool v.nim_match),
      ("confidence_ok", .bool v.confidence_ok),
      ("timestamp", .str timestamp) ])

/-- Verification diagnostics attached to an orchestrator outcome: the full
`verify_face` dictionary, or the two-key dictionary built in the exception
handler. -/
inductive VerDiag where
  | full (v : VerifyResult)
  | brief (verified : Bool) (message : String)
  deriving Repr

/-- Result dictionary of `student_check_in_with_verification`. -/
structure CheckInVerOutcome where
  success : Bool
  message : String
  attendance : Option Attendance
  verification : VerDiag
  deriving Repr

/-- Embedding of `student_check_in_with_verification`
(`app/services/face_verification_service.py`).  The verifier call is passed
in as `ver?`: `.error e` models any exception raised while constructing the
service, reading the image, or verifying (caught by the enclosing `try`,
with `e = str(exception)`); `.ok v` is the `verify_face` result.  On
`verified` falsy the function returns the failure dictionary carrying the
verification diagnostics without touching the database; on `verified` truthy
it saves the image (file side effects external; the URL construction is
modelled with `fileTimestamp`/`fileExt` standing for the timestamp and the
upload's extension), injects the serialized verification data into the
check-in payload, and delegates to `student_check_in`.  `raisedText` stands
for `str(e)` of an exception propagating out of `student_check_in`
(malformed schedule time), and `timestamp` for `str(datetime.now())` in the
serialized payload. -/
def student_check_in_with_verification (now : PyDateTime) (db : DB)
    (attendance_id : Int) (check_in_data : AttendanceCheckIn)
    (ver? : Except String VerifyResult) (nim : String)
    (confidence_threshold : ℚ) (timestamp fileTimestamp fileExt raisedText : String) :
    DB × CheckInVerOutcome :=
  match ver? with
  | .error e =>
    (db, { success := false, message := "Error during check-in: " ++ e,
           attendance := Option.none, verification := .brief false e })
  | .ok ver =>
    let face_verification_data :=
      serializeVerification ver nim confidence_threshold timestamp
    if ver.verified then
      let filename :=
        "attendance_" ++ toString attendance_id ++ "_" ++ fileTimestamp ++ fileExt
      let image_url := "/uploads/attendance_images/" ++ filename
      let cd' := { check_in_data with
                   face_verification_data := PyVal.str face_verification_data }
      match student_check_in now db attendance_id cd' (some image_url) with
      | .updated db' att =>
        (db', { success := true,
                message := "Check-in successful with face verification",
                attendance := some att, verification := .full ver })
      | .noRecord =>
        (db, { success := true,
               message := "Check-in successful with face verification",
               attendance := Option.none, verification := .full ver })
      | .raised =>
        (db, { success := false, message := "Error during check-in: " ++ raisedText,
               attendance := Option.none, verification := .brief false raisedText })
    else
      (db, { success := false, message := "Check-in denied: " ++ ver.message,
             attendance := Option.none, verification := .full ver })

/-- Record-level check-in invariant of the data model: the status is
`PRESENT` or `LATE` exactly when a check-in time is stored. -/
def recordInv (a : Attendance) : Prop :=
  (a.status = "PRESENT" ∨ a.status = "LATE") ↔ a.check_in_time ≠ Option.none

/-- Concrete schedule used to evaluate the theorems on explicit inputs. -/
def demoSchedule : Schedule :=
  { course_id := 1, start_time := "08:00", end_time := "10:00" }

/-- Concrete pending (`ABSENT`) attendance row for the demonstrations. -/
def demoAttendance : Attendance :=
  { student_id := 7, schedule_id := 3, date := 100, check_in_time := Option.none,
    status := "ABSENT", location_data := .none, face_verification_data := .none,
    smile_detected := false, image_captured_url := Option.none }

/-- Concrete session state: one pending row (key 5) and its schedule (key 3). -/
def demoDB : DB :=
  { attendances := [(5, demoAttendance)], schedules := [(3, demoSchedule)] }

/-- Concrete session state whose schedule table is empty (the row's schedule
cannot be loaded). -/
def demoDBNoSchedule : DB :=
  { attendances := [(5, demoAttendance)], schedules := [] }

/-- Concrete clock snapshot: day 100, 07:30 local time, UTC+7. -/
def demoNow : PyDateTime :=
  { day := 100, tod := todOfHMS 7 30 0, tzMinutes := some 420 }

/-- Concrete check-in payload omitting every optional field. -/
def demoCheckInData : AttendanceCheckIn :=
  { check_in_time := Option.none, location_data := .none,
    face_verification_data := .none, smile_detected := Option.none }

/-- Row stored by `student_check_in demoNow demoDB 5 demoCheckInData`:
check-in at 07:30 against an 08:00 start is `PRESENT`. -/
def demoUpdatedRecord : Attendance :=
  { demoAttendance with check_in_time := some demoNow, status := "PRESENT" }

/-- Session state after the demonstration check-in. -/
def demoUpdatedDB : DB :=
  setAttendance demoDB 5 demoUpdatedRecord

/-- Identity token of a class label as the spec words it: the substring of
the label before the first `_` separator. -/
def tokenBeforeSep (l : String) : String :=
  String.mk (l.data.takeWhile (fun c => c ≠ '_'))

/-- Whether a Python value is a string-keyed mapping (a JSON object). -/
def isMapping : PyVal → Bool
  | .dict _ => true
  | _ => false

/-- Replacing every entry of a key in an association list makes lookup of
that key return the new value, provided the key was present. -/
theorem lookup_map_replace (l : List (Int × Attendance)) (id : Int) (a old : Attendance)
    (h : l.lookup id = some old) :
    (l.map fun p => if p.1 = id then (id, a) else p).lookup id = some a := by
  induction l with
  | nil => simp [List.lookup] at h
  | cons p rest ih =>
    obtain ⟨k, v⟩ := p
    rw [List.map_cons]
    by_cases hp : k = id
    · subst hp
      show List.lookup k ((if k = k then (k, a) else (k, v)) :: _) = some a
      rw [if_pos rfl]
      simp [List.lookup]
    · have hb : (id == k) = false := beq_eq_false_iff_ne.mpr (Ne.symm hp)
      simp only [List.lookup, hb] at h
      show List.lookup id ((if k = id then (id, a) else (k, v)) :: _) = some a
      rw [if_neg hp]
      simp only [List.lookup, hb]
      exact ih h

/-- Inversion of a successful `student_check_in`: the row was found, the
status assigned is `PRESENT` or `LATE`, a check-in time is stored, the
non-supplied fields keep their prior values, and the committed database
holds the returned row. -/
theorem student_check_in_updated_inv (now : PyDateTime) (db : DB) (attendance_id : Int)
    (cd : AttendanceCheckIn) (url : Option String) (db' : DB) (rec : Attendance)
    (hu : student_check_in now db attendance_id cd url = .updated db' rec) :
    ∃ att, db.attendances.lookup attendance_id = some att
      ∧ (rec.status = "PRESENT" ∨ rec.status = "LATE")
      ∧ rec.check_in_time = some (cd.check_in_time.getD now)
      ∧ (pyTruthy cd.location_data = false → rec.location_data = att.location_data)
      ∧ (pyTruthy cd.face_verification_data = false →
          rec.face_verification_data = att.face_verification_data)
      ∧ (cd.smile_detected = Option.none → rec.smile_detected = att.smile_detected)
      ∧ (url = Option.none → rec.image_captured_url = att.image_captured_url)
      ∧ db' = setAttendance db attendance_id rec := by
  unfold student_check_in at hu
  cases hA : db.attendances.lookup attendance_id with
  | none => rw [hA] at hu; exact CheckInOutcome.noConfusion hu
  | some att =>
    rw [hA] at hu
    simp only at hu
    refine ⟨att, rfl, ?_⟩
    cases hS : db.schedules.lookup att.schedule_id with
    | none =>
      rw [hS] at hu
      simp only at hu
      injection hu with hdb hrec
      subst hdb
      subst hrec
      refine ⟨Or.inl rfl, rfl, ?_, ?_, ?_, ?_, rfl⟩
      · intro hloc; simp [hloc]
      · intro hface; simp [hface]
      · intro hsmile; simp [hsmile]
      · intro hurl; simp [hurl]
    | some sch =>
      rw [hS] at hu
      simp only at hu
      cases hP : parse_start_time sch.start_time with
      | none => rw [hP] at hu; exact CheckInOutcome.noConfusion hu
      | some hms =>
        rw [hP] at hu
        obtain ⟨h, m, s⟩ := hms
        simp only at hu
        injection hu with hdb hrec
        subst hdb
        subst hrec
        refine ⟨?_, rfl, ?_, ?_, ?_, ?_, rfl⟩
        · by_cases hb :
              naiveGtB (stripTz (cd.check_in_time.getD now))
                { day := now.day, tod := todOfHMS h m s } = true
          · right; simp [hb]
          · left; simp [hb]
        · intro hloc; simp [hloc]
        · intro hface; simp [hface]
        · intro hsmile; simp [hsmile]
        · intro hurl; simp [hurl]

/-- C1: on a loaded schedule whose start time parses as `(h, m, s)` and a
check-in instant falling on the current calendar date, the stored status is
`LATE` exactly when the instant's time of day is strictly after the parsed
start time, and `PRESENT` otherwise (so the boundary instant yields
`PRESENT`). -/
theorem checkin_status_late_iff_after_start (now : PyDateTime) (db : DB)
    (attendance_id : Int) (cd : AttendanceCheckIn) (url : Option String)
    (att : Attendance) (sch : Schedule) (h m s : Nat)
    (hA : db.attendances.lookup attendance_id = some att)
    (hS : db.schedules.lookup att.schedule_id = some sch)
    (hP : parse_start_time sch.start_time = some (h, m, s))
    (hDay : (cd.check_in_time.getD now).day = now.day) :
    ∃ db' rec, student_check_in now db attendance_id cd url = .updated db' rec
      ∧ (rec.status = "LATE" ↔ todOfHMS h m s < (cd.check_in_time.getD now).tod)
      ∧ (rec.status = "PRESENT" ↔ (cd.check_in_time.getD now).tod ≤ todOfHMS h m s) := by
  have hgt : naiveGtB (stripTz (cd.check_in_time.getD now))
      { day := now.day, tod := todOfHMS h m s }
      = decide (todOfHMS h m s < (cd.check_in_time.getD now).tod) := by
    simp [naiveGtB, stripTz, hDay]
  simp only [student_check_in, hA, hS, hP, hgt]
  refine ⟨_, _, rfl, ?_, ?_⟩ <;> by_cases hlt : todOfHMS h m s < (cd.check_in_time.getD now).tod
  · simp [hlt]
  · simp [hlt]
  · simp [hlt, Nat.le_of_lt]
  · simp [hlt, Nat.le_of_not_lt hlt]

/-- C1 witness: with start time "08:00" and a check-in instant at exactly
08:00 on the same date, the boundary case yields `PRESENT`. -/
theorem checkin_status_late_iff_after_start_witness :
    ∃ db' rec, student_check_in demoNow demoDB 5
        { check_in_time := some { day := 100, tod := todOfHMS 8 0 0 },
          location_data := .none, face_verification_data := .none,
          smile_detected := some false } Option.none = .updated db' rec
      ∧ (rec.status = "LATE" ↔ todOfHMS 8 0 0 < todOfHMS 8 0 0)
      ∧ (rec.status = "PRESENT" ↔ todOfHMS 8 0 0 ≤ todOfHMS 8 0 0) :=
  checkin_status_late_iff_after_start demoNow demoDB 5 _ Option.none
    demoAttendance demoSchedule 8 0 0 rfl rfl rfl rfl

/-- C6: when the attendance row exists but its schedule cannot be loaded,
the check-in still succeeds: the row is updated with a stored check-in time
and the degraded fallback status `PRESENT`. -/
theorem checkin_missing_schedule_fallback (now : PyDateTime) (db : DB)
    (attendance_id : Int) (cd : AttendanceCheckIn) (url : Option String)
    (att : Attendance)
    (hA : db.attendances.lookup attendance_id = some att)
    (hS : db.schedules.lookup att.schedule_id = Option.none) :
    ∃ db' rec, student_check_in now db attendance_id cd url = .updated db' rec
      ∧ rec.status = "PRESENT"
      ∧ rec.check_in_time = some (cd.check_in_time.getD now) := by
  simp only [student_check_in, hA, hS]
  exact ⟨_, _, rfl, rfl, rfl⟩

/-- C6 witness: the demonstration row checked in against the empty schedule
table is updated to `PRESENT` with the clock time stored. -/
theorem checkin_missing_schedule_fallback_witness :
    ∃ db' rec, student_check_in demoNow demoDBNoSchedule 5 demoCheckInData Option.none
        = .updated db' rec
      ∧ rec.status = "PRESENT"
      ∧ rec.check_in_time = some (demoCheckInData.check_in_time.getD demoNow) :=
  checkin_missing_schedule_fallback demoNow demoDBNoSchedule 5 demoCheckInData
    Option.none demoAttendance rfl rfl

/-- C10: a successful check-in overwrites `location_data` /
`face_verification_data` only when a truthy (non-empty) payload is supplied,
`smile_detected` only when a non-`None` flag is supplied, and
`image_captured_url` only when a non-`None` reference is supplied; omitted
inputs leave the stored values untouched. -/
theorem checkin_frame_conditions (now : PyDateTime) (db : DB) (attendance_id : Int)
    (cd : AttendanceCheckIn) (url : Option String) (db' : DB) (rec : Attendance)
    (hu : student_check_in now db attendance_id cd url = .updated db' rec)
    (att : Attendance) (hA : db.attendances.lookup attendance_id = some att) :
    (pyTruthy cd.location_data = false → rec.location_data = att.location_data)
    ∧ (pyTruthy cd.face_verification_data = false →
        rec.face_verification_data = att.face_verification_data)
    ∧ (cd.smile_detected = Option.none → rec.smile_detected = att.smile_detected)
    ∧ (url = Option.none → rec.image_captured_url = att.image_captured_url) := by
  obtain ⟨att', hA', _, _, hloc, hface, hsmile, hurl, _⟩ :=
    student_check_in_updated_inv _ _ _ _ _ _ _ hu
  have hatt : att' = att := Option.some.inj (hA'.symm.trans hA)
  subst hatt
  exact ⟨hloc, hface, hsmile, hurl⟩

/-- C10 witness: checking in the demonstration row while omitting every
optional input leaves all four stored fields unchanged. -/
theorem checkin_frame_conditions_witness :
    (pyTruthy demoCheckInData.location_data = false →
      demoUpdatedRecord.location_data = demoAttendance.location_data)
    ∧ (pyTruthy demoCheckInData.face_verification_data = false →
        demoUpdatedRecord.face_verification_data = demoAttendance.face_verification_data)
    ∧ (demoCheckInData.smile_detected = Option.none →
        demoUpdatedRecord.smile_detected = demoAttendance.smile_detected)
    ∧ (Option.none = (Option.none : Option String) →
        demoUpdatedRecord.image_captured_url = demoAttendance.image_captured_url) :=
  checkin_frame_conditions demoNow demoDB 5 demoCheckInData Option.none
    demoUpdatedDB demoUpdatedRecord rfl demoAttendance rfl

/-- C4: every record produced by single create, bulk create, or a successful
check-in satisfies the status/check-in-time invariant: creates yield
`ABSENT` rows with no check-in time, and a successful check-in stores a
check-in time together with a `PRESENT`/`LATE` status in the same committed
row. -/
theorem attendance_status_time_invariant :
    (∀ (now : PyDateTime) (newId : Int) (db : DB) (ac : AttendanceCreate),
        (create_attendance now newId db ac).2.status = "ABSENT"
        ∧ (create_attendance now newId db ac).2.check_in_time = Option.none
        ∧ recordInv (create_attendance now newId db ac).2)
    ∧ (∀ (now : PyDateTime) (newIds : List Int) (db : DB)
        (mc : MultipleAttendanceCreate) (r : Attendance),
        r ∈ (create_multiple_attendances now newIds db mc).2 →
          r.status = "ABSENT" ∧ r.check_in_time = Option.none ∧ recordInv r)
    ∧ (∀ (now : PyDateTime) (db : DB) (attendance_id : Int) (cd : AttendanceCheckIn)
        (url : Option String) (db' : DB) (rec : Attendance),
        student_check_in now db attendance_id cd url = .updated db' rec →
          rec.check_in_time = some (cd.check_in_time.getD now)
          ∧ (rec.status = "PRESENT" ∨ rec.status = "LATE")
          ∧ recordInv rec
          ∧ db'.attendances.lookup attendance_id = some rec) := by
  refine ⟨fun now newId db ac => ⟨rfl, rfl, ?_⟩,
          fun now newIds db mc r hr => ?_,
          fun now db aid cd url db' rec hu => ?_⟩
  · simp [recordInv, create_attendance]
  · simp only [create_multiple_attendances] at hr
    obtain ⟨sid, hsid, hrec⟩ := List.mem_map.mp hr
    subst hrec
    exact ⟨rfl, rfl, by simp [recordInv]⟩
  · obtain ⟨att, hA, hst, hcit, _, _, _, _, hdb⟩ :=
      student_check_in_updated_inv _ _ _ _ _ _ _ hu
    refine ⟨hcit, hst, ⟨fun _ => by simp [hcit], fun _ => hst⟩, ?_⟩
    rw [hdb]
    exact lookup_map_replace db.attendances aid rec att hA

/-- C4 witness: the invariant instantiated on the demonstration create and
check-in runs. -/
theorem attendance_status_time_invariant_witness :
    ((create_attendance demoNow 10 demoDB ⟨7, 3⟩).2.status = "ABSENT"
      ∧ (create_attendance demoNow 10 demoDB ⟨7, 3⟩).2.check_in_time = Option.none
      ∧ recordInv (create_attendance demoNow 10 demoDB ⟨7, 3⟩).2)
    ∧ ((create_attendance demoNow 10 demoDB ⟨7, 3⟩).2.status = "ABSENT"
      ∧ (create_attendance demoNow 10 demoDB ⟨7, 3⟩).2.check_in_time = Option.none
      ∧ recordInv (create_attendance demoNow 10 demoDB ⟨7, 3⟩).2)
    ∧ (demoUpdatedRecord.check_in_time = some (demoCheckInData.check_in_time.getD demoNow)
      ∧ (demoUpdatedRecord.status = "PRESENT" ∨ demoUpdatedRecord.status = "LATE")
      ∧ recordInv demoUpdatedRecord
      ∧ demoUpdatedDB.attendances.lookup 5 = some demoUpdatedRecord) :=
  ⟨attendance_status_time_invariant.1 demoNow 10 demoDB ⟨7, 3⟩,
   attendance_status_time_invariant.2.1 demoNow [10] demoDB ⟨[7], 3⟩
     (create_attendance demoNow 10 demoDB ⟨7, 3⟩).2 (List.Mem.head _),
   attendance_status_time_invariant.2.2 demoNow demoDB 5 demoCheckInData Option.none
     demoUpdatedDB demoUpdatedRecord rfl⟩

/-- Every classifier label yields, through `extract_nim`, exactly the
substring before its first `_` separator, and that token is non-empty. -/
theorem class_labels_token_spec :
    ∀ l ∈ class_labels, extract_nim l = some (tokenBeforeSep l) ∧ tokenBeforeSep l ≠ "" := by
  decide

/-- C3: on a successful classification with predicted label
`class_labels[idx]` and probability `c`, the verifier's `nim_match` holds
exactly when the label's token before the first `_` equals the expected
identity, `confidence_ok` holds exactly when `c ≥ t`, and `verified` is
their conjunction. -/
theorem verify_face_decision (idx : Nat) (h : idx < class_labels.length)
    (e : String) (c t : ℚ) :
    ((verify_face (.classified idx c) e t).nim_match = true
      ↔ tokenBeforeSep (class_labels.get ⟨idx, h⟩) = e)
    ∧ ((verify_face (.classified idx c) e t).confidence_ok = true ↔ c ≥ t)
    ∧ (verify_face (.classified idx c) e t).verified
        = ((verify_face (.classified idx c) e t).nim_match
            && (verify_face (.classified idx c) e t).confidence_ok) := by
  have hmem : class_labels.get ⟨idx, h⟩ ∈ class_labels := List.get_mem class_labels idx h
  obtain ⟨hx, hne⟩ := class_labels_token_spec _ hmem
  have hL : class_labels[idx]? = some (class_labels.get ⟨idx, h⟩) := by
    rw [List.getElem?_eq_getElem h, List.get_eq_getElem]
  simp only [verify_face, hL, hx, if_neg hne]
  exact ⟨beq_iff_eq, decide_eq_true_iff, trivial⟩

/-- C3 witness: label index 18 ("11322038_Samuel") against expected identity
"11322038" with confidence 3/4 and threshold 1/2. -/
theorem verify_face_decision_witness :
    ((verify_face (.classified 18 (3 / 4)) "11322038" (1 / 2)).nim_match = true
      ↔ tokenBeforeSep (class_labels.get ⟨18, by decide⟩) = "11322038")
    ∧ ((verify_face (.classified 18 (3 / 4)) "11322038" (1 / 2)).confidence_ok = true
        ↔ (3 : ℚ) / 4 ≥ 1 / 2)
    ∧ (verify_face (.classified 18 (3 / 4)) "11322038" (1 / 2)).verified
        = ((verify_face (.classified 18 (3 / 4)) "11322038" (1 / 2)).nim_match
            && (verify_face (.classified 18 (3 / 4)) "11322038" (1 / 2)).confidence_ok) :=
  verify_face_decision 18 (by decide) "11322038" (3 / 4) (1 / 2)

/-- C7: every error path of the verifier — undecodable image, no detected
face, an internal exception, or an out-of-range classifier index — returns
`verified = False` with `confidence = 0.0`; no error path returns
`verified = True`. -/
theorem verify_face_error_paths (n : String) (t : ℚ) (msg : String)
    (idx : Nat) (c : ℚ) (hidx : class_labels.length ≤ idx) :
    ((verify_face .decodeFail n t).verified = false
      ∧ (verify_face .decodeFail n t).confidence = 0)
    ∧ ((verify_face .noFace n t).verified = false
      ∧ (verify_face .noFace n t).confidence = 0)
    ∧ ((verify_face (.raised msg) n t).verified = false
      ∧ (verify_face (.raised msg) n t).confidence = 0)
    ∧ ((verify_face (.classified idx c) n t).verified = false
      ∧ (verify_face (.classified idx c) n t).confidence = 0) := by
  have hnone : class_labels[idx]? = Option.none := List.getElem?_eq_none hidx
  refine ⟨⟨rfl, rfl⟩, ⟨rfl, rfl⟩, ⟨rfl, rfl⟩, ?_⟩
  simp [verify_face, hnone]

/-- C7 witness: the error paths instantiated at concrete inputs (index 100
is out of range for the 38 labels). -/
theorem verify_face_error_paths_witness :
    ((verify_face .decodeFail "11322038" (1 / 2)).verified = false
      ∧ (verify_face .decodeFail "11322038" (1 / 2)).confidence = 0)
    ∧ ((verify_face .noFace "11322038" (1 / 2)).verified = false
      ∧ (verify_face .noFace "11322038" (1 / 2)).confidence = 0)
    ∧ ((verify_face (.raised "boom") "11322038" (1 / 2)).verified = false
      ∧ (verify_face (.raised "boom") "11322038" (1 / 2)).confidence = 0)
    ∧ ((verify_face (.classified 100 (9 / 10)) "11322038" (1 / 2)).verified = false
      ∧ (verify_face (.classified 100 (9 / 10)) "11322038" (1 / 2)).confidence = 0) :=
  verify_face_error_paths "11322038" (1 / 2) "boom" 100 (9 / 10) (by decide)

/-- C2: when the verifier reports `verified = False`, the self check-in
orchestrator returns the failure outcome carrying the verification
diagnostics ("Check-in denied: " plus the verifier message, and the full
verifier dictionary) and leaves the database — hence every stored attendance
field — exactly as it was: no persistence call is made. -/
theorem checkin_verification_failure_all_or_nothing (now : PyDateTime) (db : DB)
    (attendance_id : Int) (cd : AttendanceCheckIn) (v : VerifyResult) (nim : String)
    (th : ℚ) (ts fts ext errT : String)
    (hv : v.verified = false) :
    student_check_in_with_verification now db attendance_id cd (.ok v) nim th ts fts ext errT
      = (db, { success := false, message := "Check-in denied: " ++ v.message,
               attendance := Option.none, verification := .full v }) := by
  simp [student_check_in_with_verification, hv]

/-- C2 witness: a no-face verifier outcome against the demonstration
database leaves it untouched and reports the diagnostics. -/
theorem checkin_verification_failure_all_or_nothing_witness :
    student_check_in_with_verification demoNow demoDB 5 demoCheckInData
        (.ok (verify_face .noFace "11322038" (1 / 2))) "11322038" (1 / 2)
        "2024-01-10 08:00:00" "20240110080000" ".jpg" "err"
      = (demoDB, { success := false,
                   message := "Check-in denied: "
                     ++ (verify_face .noFace "11322038" (1 / 2)).message,
                   attendance := Option.none,
                   verification := .full (verify_face .noFace "11322038" (1 / 2)) }) :=
  checkin_verification_failure_all_or_nothing demoNow demoDB 5 demoCheckInData
    (verify_face .noFace "11322038" (1 / 2)) "11322038" (1 / 2)
    "2024-01-10 08:00:00" "20240110080000" ".jpg" "err" rfl

/-- C5 counterexample: the string input "123" is non-null, yet the
normalization result is the integer 123 — not a string-keyed mapping — 
because `json.loads` succeeds and its result is returned unchanged. -/
theorem process_json_field_not_always_mapping :
    process_json_field (.str "123") = .int 123
    ∧ isMapping (process_json_field (.str "123")) = false :=
  ⟨rfl, rfl⟩

/-- C5 (amended): for non-null input, a dict is returned as-is, a numeric
scalar `n` becomes `{"data": str(n)}`, a string that is not parseable as
JSON becomes `{"data": original-string}`, and a string that does parse is
replaced by its parse result — which may be any JSON value, not necessarily
an object. -/
theorem process_json_field_shape :
    (∀ d, process_json_field (.dict d) = .dict d)
    ∧ (∀ n : Int, process_json_field (.int n) = .dict [("data", .str (toString n))])
    ∧ (∀ f : PyFloat, process_json_field (.float f) = .dict [("data", .str (pyFloatStr f))])
    ∧ (∀ s, jsonLoads s = Option.none →
        process_json_field (.str s) = .dict [("data", .str s)])
    ∧ (∀ s v, jsonLoads s = some v → process_json_field (.str s) = v) := by
  refine ⟨fun d => rfl, fun n => rfl, fun f => rfl, fun s hs => ?_, fun s v hs => ?_⟩
  · simp only [process_json_field, hs]
  · simp only [process_json_field, hs]

/-- C5 witness: the unparsable string "not json" becomes its scalar
fallback mapping. -/
theorem process_json_field_shape_witness :
    process_json_field (.str "not json") = .dict [("data", .str "not json")] :=
  process_json_field_shape.2.2.2.1 "not json" rfl

/-- C9 counterexample: applying the normalization rule twice to the string
"123" differs from applying it once — one application yields the integer
123, and re-normalizing that integer yields `{"data": "123"}`. -/
theorem process_json_field_not_idempotent :
    process_json_field (process_json_field (.str "123"))
      ≠ process_json_field (.str "123") := by
  intro hcontra
  have h1 : process_json_field (.str "123") = .int 123 := rfl
  rw [h1] at hcontra
  have h2 : process_json_field (.int 123) = .dict [("data", .str "123")] := rfl
  rw [h2] at hcontra
  exact PyVal.noConfusion hcontra

/-- C9 (amended): the normalization rule is the identity on values already
in mapping form, hence applying it twice equals applying it once whenever
the first application yields a mapping — but not for arbitrary inputs. -/
theorem process_json_field_idempotent_on_mappings :
    (∀ d, process_json_field (.dict d) = .dict d)
    ∧ (∀ x d, process_json_field x = .dict d →
        process_json_field (process_json_field x) = process_json_field x) := by
  refine ⟨fun d => rfl, fun x d h => ?_⟩
  rw [h]
  rfl

/-- C9 witness: the unparsable string "not json" normalizes to a mapping,
and re-normalizing is the identity there. -/
theorem process_json_field_idempotent_on_mappings_witness :
    process_json_field (process_json_field (.str "not json"))
      = process_json_field (.str "not json") :=
  process_json_field_idempotent_on_mappings.2 (.str "not json")
    [("data", .str "not json")] rfl

/-- C8 counterexample: the demonstration database already holds a row for
the natural key (student 7, schedule 3, day 100); `create_attendance` for
the same student and schedule on the same day does not fail — it inserts a
second row for that key. -/
theorem create_attendance_duplicate_natural_key :
    natKeyCount demoDB 7 3 100 = 1
    ∧ natKeyCount (create_attendance demoNow 2 demoDB ⟨7, 3⟩).1 7 3 100 = 2 :=
  ⟨rfl, rfl⟩

/-- C8 (amended): the single-record create operation performs no
natural-key check: it always succeeds and inserts a fresh row, so the row
count for the created record's (student, schedule, today) natural key
always grows by one — even when a row for that key already exists. -/
theorem create_attendance_always_inserts (now : PyDateTime) (newId : Int)
    (db : DB) (ac : AttendanceCreate) :
    natKeyCount (create_attendance now newId db ac).1
        ac.student_id ac.schedule_id now.day
      = natKeyCount db ac.student_id ac.schedule_id now.day + 1 := by
  simp [natKeyCount, create_attendance, List.filter_append]
